import Mathlib

/-!
Shallow embedding of the mood-based recommendation HTTP handler
(src/lib/functions/main.py): a single request handler `vibe_recommend`
plus a cache sweeper `clean_old_cache`.

Modelling conventions:
* Machine floats are modelled as exact rationals.
* The external collaborators (history store, catalog search, audio-feature
  fetch, recommendation fetch) are fields of an `Env`; a call that throws
  is a call returning `Except.error msg` where `msg` models `str(e)`.
* The sklearn `cosine_similarity` kernel is an external library routine and
  is likewise carried in the `Env` as an abstract function on 3-vectors.
* JSON field values are modelled by `JVal` so that Python truthiness and
  the `.lower()` attribute error on non-strings are representable.
* Timestamps are integers (seconds); `timedelta(minutes=10)` is 600.
* Each external call performed is recorded in a `calls` trace.
-/

/-- A JSON scalar value as it can appear in the request body. -/
inductive JVal where
  | str (s : String)
  | num (q : ℚ)
  | bool (b : Bool)
  | null
deriving DecidableEq

/-- Python truthiness of a `JVal` (`if not user_id` and similar tests). -/
def JVal.truthy : JVal → Bool
  | .str s => s ≠ ""
  | .num q => q ≠ 0
  | .bool b => b
  | .null => false

/-- Python string interpolation of a value, as in the f-string cache key. -/
def JVal.pyStr : JVal → String
  | .str s => s
  | .num q => toString q
  | .bool b => cond b "True" "False"
  | .null => "None"

/-- The two request-body fields the handler reads; `none` means absent key. -/
structure ReqData where
  user_id : Option JVal
  mood : Option JVal
deriving DecidableEq

/-- An inbound HTTP request: method and parsed JSON body
(`none` models a missing or non-JSON body, where get_json yields None). -/
structure Request where
  method : String
  json : Option ReqData

/-- Models `data.get('mood', 'chill').lower()`: the default applies only
when the key is absent; `.lower()` on a non-string raises AttributeError,
which the model surfaces as an error message. -/
def lowerMood : Option JVal → Except String String
  | none => .ok "chill"
  | some (.str s) => .ok s.toLower
  | some _ => .error "object has no attribute lower"

/-- One history document, as read back from the external store;
only the track_id field is consumed. -/
structure HistoryEntry where
  track_id : Option String

/-- `[h.get('track_id') for h in history if h.get('track_id')]`:
keep only present, truthy (non-empty) track ids. -/
def trackIdsOf (hs : List HistoryEntry) : List String :=
  hs.filterMap fun h =>
    match h.track_id with
    | some s => if s = "" then none else some s
    | none => none

/-- A 3-dimensional feature vector (energy, valence, danceability order). -/
structure Vec3 where
  x : ℚ
  y : ℚ
  z : ℚ
deriving DecidableEq

/-- Audio features of one track, as returned by the catalog service. -/
structure AudioFeatures where
  energy : ℚ
  valence : ℚ
  danceability : ℚ
deriving DecidableEq

/-- `[f['energy'], f['valence'], f['danceability']]`. -/
def featVec (f : AudioFeatures) : Vec3 :=
  ⟨f.energy, f.valence, f.danceability⟩

/-- `np.mean(vectors, axis=0)`: componentwise mean. -/
def meanVec (l : List Vec3) : Vec3 :=
  ⟨(l.map Vec3.x).sum / l.length, (l.map Vec3.y).sum / l.length,
   (l.map Vec3.z).sum / l.length⟩

/-- A candidate or search-result track from the catalog service. -/
structure Track where
  id : String
  name : String
  artist : String
  albumImages : List String
  uri : String
  preview_url : Option String

/-- One entry of the scored output list. -/
structure ScoredTrack where
  id : String
  name : String
  artist : String
  image : String
  uri : String
  preview_url : Option String
  score : ℚ
deriving DecidableEq

/-- `round(x, 3)`: round to 3 decimal digits. -/
def round3 (x : ℚ) : ℚ :=
  (round (1000 * x) : ℤ) / 1000

/-- The static mood table of the handler. -/
def mood_map : List (String × Vec3) :=
  [("happy", ⟨0.8, 0.9, 0.8⟩),
   ("sad", ⟨0.2, 0.3, 0.3⟩),
   ("energetic", ⟨0.9, 0.6, 0.9⟩),
   ("chill", ⟨0.4, 0.5, 0.4⟩),
   ("focus", ⟨0.6, 0.4, 0.5⟩),
   ("party", ⟨0.9, 0.7, 0.95⟩)]

/-- `mood_map.get(mood, [0.5, 0.5, 0.5])`. -/
def moodTarget (mood : String) : Vec3 :=
  (mood_map.lookup mood).getD ⟨0.5, 0.5, 0.5⟩

/-- The external collaborators of the handler, including the similarity
kernel of the external math library. -/
structure Env where
  history : JVal → Except String (List HistoryEntry)
  search : String → Except String (List Track)
  audioFeatures : List String → Except String (List (Option AudioFeatures))
  recommendations : List String → Nat → Except String (List Track)
  cosSim : Vec3 → Vec3 → ℚ

/-- Tags naming each external-call site of the handler, in source order. -/
inductive Call where
  | historyFetch
  | searchCall
  | seedFeaturesCall
  | recsCall
  | recFeaturesCall
deriving DecidableEq

/-- The JSON body of a response. -/
inductive RespBody where
  | empty
  | err (msg : String)
  | recs (tracks : List ScoredTrack)
deriving DecidableEq

/-- One cache entry: the stored result payload and its creation time. -/
structure CacheEntry where
  data : List ScoredTrack
  timestamp : ℤ
deriving DecidableEq

/-- The process-wide recommendation cache, keyed by "user_mood" strings. -/
abbrev Cache : Type := List (String × CacheEntry)

/-- Outcome of one handler invocation: response body, HTTP status, the
cache state after the call, and the trace of external calls performed. -/
structure HResult where
  body : RespBody
  status : Nat
  cache : Cache
  calls : List Call
deriving DecidableEq

/-- `clean_old_cache`: drop every entry strictly older than 10 minutes,
keeping the rest in order. -/
def clean_old_cache (now : ℤ) (c : Cache) : Cache :=
  c.filter fun kv => !decide (600 < now - kv.2.timestamp)

/-- `recommendation_cache[cache_key] = value`: Python dict assignment,
overwriting in place when the key exists, appending otherwise. -/
def cacheInsert (c : Cache) (k : String) (v : CacheEntry) : Cache :=
  if c.any (fun kv => kv.1 == k) then
    c.map fun kv => if kv.1 == k then (k, v) else kv
  else
    c ++ [(k, v)]

/-- The record built for one scored candidate, with the weighted score
`cosine_similarity(user_vec, vec) * 0.6 + cosine_similarity(target, vec) * 0.4`
rounded to 3 decimals. -/
def mkScored (cos : Vec3 → Vec3 → ℚ) (user_vec target : Vec3)
    (t : Track) (f : AudioFeatures) : ScoredTrack :=
  { id := t.id
    name := t.name
    artist := t.artist
    image := t.albumImages.headD ""
    uri := t.uri
    preview_url := t.preview_url
    score := round3 (cos user_vec (featVec f) * 0.6 +
                     cos target (featVec f) * 0.4) }

/-- The scoring loop `for i, t in enumerate(recs['tracks'])`: index `i`
into `rec_features` (an IndexError when the feature list is shorter
propagates as an exception), skip entries with no features, otherwise
append the scored record. -/
def scoreLoop (cos : Vec3 → Vec3 → ℚ) (user_vec target : Vec3) :
    List Track → List (Option AudioFeatures) → Except String (List ScoredTrack)
  | [], _ => .ok []
  | _ :: _, [] => .error "list index out of range"
  | t :: ts, of :: fs =>
    match of with
    | none => scoreLoop cos user_vec target ts fs
    | some f =>
      match scoreLoop cos user_vec target ts fs with
      | .error e => .error e
      | .ok rest => .ok (mkScored cos user_vec target t f :: rest)

/-- `sorted(scored, key=lambda x: x['score'], reverse=True)[:10]`:
stable descending sort by score, truncated to the top 10. -/
def sortTop (l : List ScoredTrack) : List ScoredTrack :=
  (l.mergeSort fun a b => decide (b.score ≤ a.score)).take 10

/-- The tail of the handler from the second `if not track_ids` check on:
seed-feature fetch, user vector, mood target, recommendation fetch,
candidate-feature fetch (degrading to all-null on failure), scoring,
sorting, caching. `cache1` is the already swept cache. -/
def continueWithSeeds (env : Env) (now : ℤ) (cache1 : Cache)
    (cache_key : String) (mood : String) (track_ids : List String)
    (calls : List Call) : HResult :=
  if track_ids.isEmpty then
    ⟨.recs [], 200, cache1, calls⟩
  else
    match env.audioFeatures track_ids with
    | .error _ =>
      ⟨.err "Failed to get audio features", 500, cache1,
       calls ++ [.seedFeaturesCall]⟩
    | .ok fs0 =>
      let features := fs0.filterMap id
      if features.isEmpty then
        ⟨.recs [], 200, cache1, calls ++ [.seedFeaturesCall]⟩
      else
        let user_vec := meanVec (features.map featVec)
        let target := moodTarget mood
        match env.recommendations (track_ids.take 5) 20 with
        | .error _ =>
          ⟨.err "Failed to get recommendations", 500, cache1,
           calls ++ [.seedFeaturesCall, .recsCall]⟩
        | .ok recTracks =>
          let rec_ids := recTracks.map Track.id
          let rec_features :=
            match env.audioFeatures rec_ids with
            | .error _ => List.replicate rec_ids.length none
            | .ok fs => fs
          match scoreLoop env.cosSim user_vec target recTracks rec_features with
          | .error e =>
            ⟨.err e, 500, cache1,
             calls ++ [.seedFeaturesCall, .recsCall, .recFeaturesCall]⟩
          | .ok scored =>
            let top := sortTop scored
            ⟨.recs top, 200, cacheInsert cache1 cache_key ⟨top, now⟩,
             calls ++ [.seedFeaturesCall, .recsCall, .recFeaturesCall]⟩

/-- The HTTP handler `vibe_recommend`. Uncaught exceptions (the mood
attribute error, a history-fetch failure, an index error in the scoring
loop) reach the top-level catch and come back as status 500 with the raw
message, which the model returns directly at the raising site. -/
def vibe_recommend (env : Env) (now : ℤ) (cache : Cache) (req : Request) :
    HResult :=
  if req.method = "OPTIONS" then
    ⟨.empty, 204, cache, []⟩
  else
    let data := req.json.getD ⟨none, none⟩
    let user_id := data.user_id
    match lowerMood data.mood with
    | .error e => ⟨.err e, 500, cache, []⟩
    | .ok mood =>
      match user_id with
      | none => ⟨.err "user_id required", 400, cache, []⟩
      | some uid =>
        if !uid.truthy then
          ⟨.err "user_id required", 400, cache, []⟩
        else
          let cache1 := clean_old_cache now cache
          let cache_key := uid.pyStr ++ "_" ++ mood
          match cache1.lookup cache_key with
          | some entry => ⟨.recs entry.data, 200, cache1, []⟩
          | none =>
            match env.history uid with
            | .error e => ⟨.err e, 500, cache1, [.historyFetch]⟩
            | .ok history =>
              let track_ids := trackIdsOf history
              if track_ids.isEmpty then
                match env.search mood with
                | .error _ =>
                  ⟨.err "Failed to search tracks", 500, cache1,
                   [.historyFetch, .searchCall]⟩
                | .ok items =>
                  continueWithSeeds env now cache1 cache_key mood
                    (items.map Track.id) [.historyFetch, .searchCall]
              else
                continueWithSeeds env now cache1 cache_key mood track_ids
                  [.historyFetch]

/-! ## Concrete fixtures for instantiating the theorems -/

/-- A benign environment in which every collaborator answers empty. -/
def env0 : Env :=
  ⟨fun _ => .ok [], fun _ => .ok [], fun _ => .ok [],
   fun _ _ => .ok [], fun _ _ => 0⟩

/-- A degenerate similarity kernel used by the fixtures. -/
def zeroCos : Vec3 → Vec3 → ℚ := fun _ _ => 0

/-- A sample audio-feature record. -/
def fA : AudioFeatures := ⟨0.5, 0.5, 0.5⟩

/-- A second sample audio-feature record. -/
def fB : AudioFeatures := ⟨0.9, 0.1, 0.2⟩

/-- A sample candidate track. -/
def tA : Track := ⟨"t1", "n1", "a1", [], "u1", none⟩

/-- A second sample candidate track. -/
def tB : Track := ⟨"t2", "n2", "a2", [], "u2", none⟩

/-- An environment realising one full successful scoring run seeded
from one history track. -/
def envRun : Env :=
  ⟨fun _ => .ok [⟨some "s1"⟩],
   fun _ => .ok [],
   fun ids => if ids = ["s1"] then .ok [some fA] else .ok [some fB],
   fun _ _ => .ok [tA],
   fun _ _ => 0⟩

/-- An environment whose candidate-feature fetch throws. -/
def envRecFail : Env :=
  ⟨fun _ => .ok [⟨some "s1"⟩],
   fun _ => .ok [],
   fun ids => if ids = ["s1"] then .ok [some fA] else .error "rf down",
   fun _ _ => .ok [tA],
   fun _ _ => 0⟩

/-- An environment whose history fetch throws. -/
def envHistErr : Env :=
  ⟨fun _ => .error "history store down", fun _ => .ok [], fun _ => .ok [],
   fun _ _ => .ok [], fun _ _ => 0⟩

/-! ## Helper lemmas -/

theorem lookup_mem {c : List (String × CacheEntry)} {k : String}
    {e : CacheEntry} (h : c.lookup k = some e) : (k, e) ∈ c := by
  induction c with
  | nil => simp [List.lookup] at h
  | cons kv rest ih =>
    obtain ⟨k0, e0⟩ := kv
    rw [List.lookup_cons] at h
    by_cases hk : k = k0
    · subst hk
      simp at h
      subst h
      exact List.mem_cons_self _ _
    · have : (k == k0) = false := beq_eq_false_iff_ne.mpr hk
      rw [this] at h
      exact List.mem_cons_of_mem _ (ih h)

theorem clean_old_cache_age {now : ℤ} {c : Cache} {kv : String × CacheEntry}
    (h : kv ∈ clean_old_cache now c) : now - kv.2.timestamp ≤ 600 := by
  have := (List.mem_filter.mp h).2
  simp only [Bool.not_eq_true', decide_eq_false_iff_not, not_lt] at this
  exact this

theorem scoreLoop_replicate_none (cos : Vec3 → Vec3 → ℚ) (u tgt : Vec3)
    (ts : List Track) : scoreLoop cos u tgt ts (List.replicate ts.length none)
      = .ok [] := by
  induction ts with
  | nil => rfl
  | cons t ts ih => simpa [scoreLoop, List.replicate] using ih

/-! ## Claim theorems -/

/-- Claim C1: every candidate track whose fetched feature entry is non-null
is scored with
`cosine_similarity(user_vec, vec) * 0.6 + cosine_similarity(target, vec) * 0.4`
rounded to 3 decimal digits, and every candidate whose feature entry is
null is omitted from the scored list entirely: a successful scoring loop
returns exactly the zip of candidates with their feature entries, keeping
the non-null ones with the weighted rounded score. -/
theorem scoreLoop_scores_nonnull_skips_null (cos : Vec3 → Vec3 → ℚ)
    (u tgt : Vec3) (ts : List Track) (fs : List (Option AudioFeatures))
    (scored : List ScoredTrack)
    (h : scoreLoop cos u tgt ts fs = .ok scored) :
    scored = (ts.zip fs).filterMap fun p =>
      p.2.map fun f =>
        { id := p.1.id
          name := p.1.name
          artist := p.1.artist
          image := p.1.albumImages.headD ""
          uri := p.1.uri
          preview_url := p.1.preview_url
          score := round3 (cos u (featVec f) * 0.6 +
                           cos tgt (featVec f) * 0.4) } := by
  induction ts generalizing fs scored with
  | nil =>
    simp only [scoreLoop, Except.ok.injEq] at h
    simp [← h]
  | cons t ts ih =>
    cases fs with
    | nil => simp [scoreLoop] at h
    | cons of fs =>
      cases of with
      | none =>
        simp only [scoreLoop] at h
        simpa using ih fs scored h
      | some f =>
        simp only [scoreLoop] at h
        cases hrec : scoreLoop cos u tgt ts fs with
        | error e => rw [hrec] at h; simp at h
        | ok rest =>
          rw [hrec] at h
          simp only [Except.ok.injEq] at h
          subst h
          simpa [mkScored] using ih fs rest hrec

/-- Witness for C1: a two-candidate run, one with features and one with a
null entry, scores the first and omits the second. -/
theorem scoreLoop_scores_witness :
    scoreLoop zeroCos ⟨1, 0, 0⟩ ⟨0, 1, 0⟩ [tA, tB] [some fA, none] =
      .ok [mkScored zeroCos ⟨1, 0, 0⟩ ⟨0, 1, 0⟩ tA fA] ∧
    [mkScored zeroCos ⟨1, 0, 0⟩ ⟨0, 1, 0⟩ tA fA] =
      ([tA, tB].zip [some fA, none]).filterMap fun p =>
        p.2.map fun f =>
          { id := p.1.id
            name := p.1.name
            artist := p.1.artist
            image := p.1.albumImages.headD ""
            uri := p.1.uri
            preview_url := p.1.preview_url
            score := round3 (zeroCos ⟨1, 0, 0⟩ (featVec f) * 0.6 +
                             zeroCos ⟨0, 1, 0⟩ (featVec f) * 0.4) } :=
  ⟨rfl, scoreLoop_scores_nonnull_skips_null zeroCos ⟨1, 0, 0⟩ ⟨0, 1, 0⟩
    [tA, tB] [some fA, none] [mkScored zeroCos ⟨1, 0, 0⟩ ⟨0, 1, 0⟩ tA fA] rfl⟩

theorem moodTarget_cases (m : String) :
    moodTarget m = ⟨0.5, 0.5, 0.5⟩ ∨ moodTarget m ∈ mood_map.map Prod.snd := by
  unfold moodTarget
  cases h : mood_map.lookup m with
  | none => exact .inl rfl
  | some v =>
    right
    simp only [Option.getD_some]
    have hv : (m, v) ∈ mood_map := by
      unfold mood_map at h ⊢
      simp only [List.lookup] at h
      repeat' split at h
      all_goals simp_all
    exact List.mem_map_of_mem Prod.snd hv

/-- Claim C6: every mood string outside the six known moods maps to
[0.5, 0.5, 0.5]; each of the six known moods maps to its fixed table
vector; and all components of every target vector lie in [0, 1]. -/
theorem moodTarget_table_default_bounds :
    (∀ m : String,
        m ∉ ["happy", "sad", "energetic", "chill", "focus", "party"] →
        moodTarget m = ⟨0.5, 0.5, 0.5⟩) ∧
    moodTarget "happy" = ⟨0.8, 0.9, 0.8⟩ ∧
    moodTarget "sad" = ⟨0.2, 0.3, 0.3⟩ ∧
    moodTarget "energetic" = ⟨0.9, 0.6, 0.9⟩ ∧
    moodTarget "chill" = ⟨0.4, 0.5, 0.4⟩ ∧
    moodTarget "focus" = ⟨0.6, 0.4, 0.5⟩ ∧
    moodTarget "party" = ⟨0.9, 0.7, 0.95⟩ ∧
    (∀ m : String,
        0 ≤ (moodTarget m).x ∧ (moodTarget m).x ≤ 1 ∧
        0 ≤ (moodTarget m).y ∧ (moodTarget m).y ≤ 1 ∧
        0 ≤ (moodTarget m).z ∧ (moodTarget m).z ≤ 1) := by
  refine ⟨?_, rfl, rfl, rfl, rfl, rfl, rfl, ?_⟩
  · intro m hm
    simp only [List.mem_cons, List.not_mem_nil, or_false, not_or] at hm
    obtain ⟨h1, h2, h3, h4, h5, h6⟩ := hm
    simp [moodTarget, mood_map, List.lookup, beq_eq_false_iff_ne.mpr h1,
      beq_eq_false_iff_ne.mpr h2, beq_eq_false_iff_ne.mpr h3,
      beq_eq_false_iff_ne.mpr h4, beq_eq_false_iff_ne.mpr h5,
      beq_eq_false_iff_ne.mpr h6]
  · intro m
    rcases moodTarget_cases m with h | h
    · rw [h]; norm_num
    · have h6 : moodTarget m = ⟨0.8, 0.9, 0.8⟩ ∨ moodTarget m = ⟨0.2, 0.3, 0.3⟩ ∨
          moodTarget m = ⟨0.9, 0.6, 0.9⟩ ∨ moodTarget m = ⟨0.4, 0.5, 0.4⟩ ∨
          moodTarget m = ⟨0.6, 0.4, 0.5⟩ ∨ moodTarget m = ⟨0.9, 0.7, 0.95⟩ := by
        simpa [mood_map] using h
      rcases h6 with h | h | h | h | h | h <;> rw [h] <;> norm_num

/-- Witness for C6: the unknown mood "angry" falls back to the default
vector. -/
theorem moodTarget_default_witness :
    ("angry" ∉ ["happy", "sad", "energetic", "chill", "focus", "party"]) ∧
    moodTarget "angry" = ⟨0.5, 0.5, 0.5⟩ :=
  ⟨by decide, moodTarget_table_default_bounds.1 "angry" (by decide)⟩

theorem sortTop_nil : sortTop [] = [] := by simp [sortTop]

/-! ### Path equations for `continueWithSeeds` -/

theorem cws_empty (env : Env) (now : ℤ) (cache1 : Cache) (key mood : String)
    (tids : List String) (calls : List Call) (h0 : tids = []) :
    continueWithSeeds env now cache1 key mood tids calls =
      ⟨.recs [], 200, cache1, calls⟩ := by
  simp [continueWithSeeds, h0]

theorem cws_featErr (env : Env) (now : ℤ) (cache1 : Cache) (key mood : String)
    (tids : List String) (calls : List Call) (msg : String) (h0 : tids ≠ [])
    (ha : env.audioFeatures tids = .error msg) :
    continueWithSeeds env now cache1 key mood tids calls =
      ⟨.err "Failed to get audio features", 500, cache1,
       calls ++ [.seedFeaturesCall]⟩ := by
  simp [continueWithSeeds, List.isEmpty_iff, h0, ha]

theorem cws_featEmpty (env : Env) (now : ℤ) (cache1 : Cache) (key mood : String)
    (tids : List String) (calls : List Call)
    (fs0 : List (Option AudioFeatures)) (h0 : tids ≠ [])
    (ha : env.audioFeatures tids = .ok fs0) (hfe : fs0.filterMap id = []) :
    continueWithSeeds env now cache1 key mood tids calls =
      ⟨.recs [], 200, cache1, calls ++ [.seedFeaturesCall]⟩ := by
  simp [continueWithSeeds, List.isEmpty_iff, h0, ha, hfe]

theorem cws_recsErr (env : Env) (now : ℤ) (cache1 : Cache) (key mood : String)
    (tids : List String) (calls : List Call)
    (fs0 : List (Option AudioFeatures)) (msg : String) (h0 : tids ≠ [])
    (ha : env.audioFeatures tids = .ok fs0) (hfe : fs0.filterMap id ≠ [])
    (hr : env.recommendations (tids.take 5) 20 = .error msg) :
    continueWithSeeds env now cache1 key mood tids calls =
      ⟨.err "Failed to get recommendations", 500, cache1,
       calls ++ [.seedFeaturesCall, .recsCall]⟩ := by
  simp [continueWithSeeds, List.isEmpty_iff, h0, ha, hfe, hr]

theorem cws_ok (env : Env) (now : ℤ) (cache1 : Cache) (key mood : String)
    (tids : List String) (calls : List Call)
    (fs0 rfs : List (Option AudioFeatures)) (rts : List Track)
    (scored : List ScoredTrack) (h0 : tids ≠ [])
    (ha : env.audioFeatures tids = .ok fs0) (hfe : fs0.filterMap id ≠ [])
    (hr : env.recommendations (tids.take 5) 20 = .ok rts)
    (hcf : env.audioFeatures (rts.map Track.id) = .ok rfs)
    (hs : scoreLoop env.cosSim (meanVec ((fs0.filterMap id).map featVec))
            (moodTarget mood) rts rfs = .ok scored) :
    continueWithSeeds env now cache1 key mood tids calls =
      ⟨.recs (sortTop scored), 200,
       cacheInsert cache1 key ⟨sortTop scored, now⟩,
       calls ++ [.seedFeaturesCall, .recsCall, .recFeaturesCall]⟩ := by
  simp [continueWithSeeds, List.isEmpty_iff, h0, ha, hfe, hr, hcf, hs]

theorem cws_scoreErr (env : Env) (now : ℤ) (cache1 : Cache) (key mood : String)
    (tids : List String) (calls : List Call)
    (fs0 rfs : List (Option AudioFeatures)) (rts : List Track) (e : String)
    (h0 : tids ≠ []) (ha : env.audioFeatures tids = .ok fs0)
    (hfe : fs0.filterMap id ≠ [])
    (hr : env.recommendations (tids.take 5) 20 = .ok rts)
    (hcf : env.audioFeatures (rts.map Track.id) = .ok rfs)
    (hs : scoreLoop env.cosSim (meanVec ((fs0.filterMap id).map featVec))
            (moodTarget mood) rts rfs = .error e) :
    continueWithSeeds env now cache1 key mood tids calls =
      ⟨.err e, 500, cache1,
       calls ++ [.seedFeaturesCall, .recsCall, .recFeaturesCall]⟩ := by
  simp [continueWithSeeds, List.isEmpty_iff, h0, ha, hfe, hr, hcf, hs]

theorem cws_recFeatErr (env : Env) (now : ℤ) (cache1 : Cache)
    (key mood : String) (tids : List String) (calls : List Call)
    (fs0 : List (Option AudioFeatures)) (rts : List Track) (e : String)
    (h0 : tids ≠ []) (ha : env.audioFeatures tids = .ok fs0)
    (hfe : fs0.filterMap id ≠ [])
    (hr : env.recommendations (tids.take 5) 20 = .ok rts)
    (hcf : env.audioFeatures (rts.map Track.id) = .error e) :
    continueWithSeeds env now cache1 key mood tids calls =
      ⟨.recs [], 200, cacheInsert cache1 key ⟨[], now⟩,
       calls ++ [.seedFeaturesCall, .recsCall, .recFeaturesCall]⟩ := by
  have hrep : scoreLoop env.cosSim
      (meanVec ((fs0.filterMap id).map featVec)) (moodTarget mood) rts
      (List.replicate rts.length none) = .ok [] :=
    scoreLoop_replicate_none _ _ _ _
  simp [continueWithSeeds, List.isEmpty_iff, h0, ha, hfe, hr, hcf, hrep,
    sortTop_nil]

/-! ### Path equations for `vibe_recommend` -/

theorem vibe_options (env : Env) (now : ℤ) (cache : Cache) (req : Request)
    (h : req.method = "OPTIONS") :
    vibe_recommend env now cache req = ⟨.empty, 204, cache, []⟩ := by
  simp [vibe_recommend, h]

theorem vibe_moodErr (env : Env) (now : ℤ) (cache : Cache) (req : Request)
    (e : String) (hm : req.method ≠ "OPTIONS")
    (he : lowerMood (req.json.getD ⟨none, none⟩).mood = .error e) :
    vibe_recommend env now cache req = ⟨.err e, 500, cache, []⟩ := by
  simp [vibe_recommend, hm, he]

theorem vibe_noUser (env : Env) (now : ℤ) (cache : Cache) (req : Request)
    (mood : String) (hm : req.method ≠ "OPTIONS")
    (hmo : lowerMood (req.json.getD ⟨none, none⟩).mood = .ok mood)
    (hu : (req.json.getD ⟨none, none⟩).user_id = none) :
    vibe_recommend env now cache req =
      ⟨.err "user_id required", 400, cache, []⟩ := by
  simp [vibe_recommend, hm, hmo, hu]

theorem vibe_falsyUser (env : Env) (now : ℤ) (cache : Cache) (req : Request)
    (mood : String) (uid : JVal) (hm : req.method ≠ "OPTIONS")
    (hmo : lowerMood (req.json.getD ⟨none, none⟩).mood = .ok mood)
    (hu : (req.json.getD ⟨none, none⟩).user_id = some uid)
    (ht : uid.truthy = false) :
    vibe_recommend env now cache req =
      ⟨.err "user_id required", 400, cache, []⟩ := by
  simp [vibe_recommend, hm, hmo, hu, ht]

theorem vibe_hit (env : Env) (now : ℤ) (cache : Cache) (req : Request)
    (mood : String) (uid : JVal) (entry : CacheEntry)
    (hm : req.method ≠ "OPTIONS")
    (hmo : lowerMood (req.json.getD ⟨none, none⟩).mood = .ok mood)
    (hu : (req.json.getD ⟨none, none⟩).user_id = some uid)
    (ht : uid.truthy = true)
    (hlk : (clean_old_cache now cache).lookup (uid.pyStr ++ "_" ++ mood) =
      some entry) :
    vibe_recommend env now cache req =
      ⟨.recs entry.data, 200, clean_old_cache now cache, []⟩ := by
  simp [vibe_recommend, hm, hmo, hu, ht, hlk]

theorem vibe_histErr (env : Env) (now : ℤ) (cache : Cache) (req : Request)
    (mood : String) (uid : JVal) (msg : String)
    (hm : req.method ≠ "OPTIONS")
    (hmo : lowerMood (req.json.getD ⟨none, none⟩).mood = .ok mood)
    (hu : (req.json.getD ⟨none, none⟩).user_id = some uid)
    (ht : uid.truthy = true)
    (hlk : (clean_old_cache now cache).lookup (uid.pyStr ++ "_" ++ mood) =
      none)
    (hh : env.history uid = .error msg) :
    vibe_recommend env now cache req =
      ⟨.err msg, 500, clean_old_cache now cache, [.historyFetch]⟩ := by
  simp [vibe_recommend, hm, hmo, hu, ht, hlk, hh]

theorem vibe_searchErr (env : Env) (now : ℤ) (cache : Cache) (req : Request)
    (mood : String) (uid : JVal) (history : List HistoryEntry) (msg : String)
    (hm : req.method ≠ "OPTIONS")
    (hmo : lowerMood (req.json.getD ⟨none, none⟩).mood = .ok mood)
    (hu : (req.json.getD ⟨none, none⟩).user_id = some uid)
    (ht : uid.truthy = true)
    (hlk : (clean_old_cache now cache).lookup (uid.pyStr ++ "_" ++ mood) =
      none)
    (hh : env.history uid = .ok history) (hemp : trackIdsOf history = [])
    (hs : env.search mood = .error msg) :
    vibe_recommend env now cache req =
      ⟨.err "Failed to search tracks", 500, clean_old_cache now cache,
       [.historyFetch, .searchCall]⟩ := by
  simp [vibe_recommend, hm, hmo, hu, ht, hlk, hh, hemp, hs,
    List.isEmpty_iff]

theorem vibe_searchOk (env : Env) (now : ℤ) (cache : Cache) (req : Request)
    (mood : String) (uid : JVal) (history : List HistoryEntry)
    (items : List Track) (hm : req.method ≠ "OPTIONS")
    (hmo : lowerMood (req.json.getD ⟨none, none⟩).mood = .ok mood)
    (hu : (req.json.getD ⟨none, none⟩).user_id = some uid)
    (ht : uid.truthy = true)
    (hlk : (clean_old_cache now cache).lookup (uid.pyStr ++ "_" ++ mood) =
      none)
    (hh : env.history uid = .ok history) (hemp : trackIdsOf history = [])
    (hs : env.search mood = .ok items) :
    vibe_recommend env now cache req =
      continueWithSeeds env now (clean_old_cache now cache)
        (uid.pyStr ++ "_" ++ mood) mood (items.map Track.id)
        [.historyFetch, .searchCall] := by
  simp [vibe_recommend, hm, hmo, hu, ht, hlk, hh, hemp, hs,
    List.isEmpty_iff]

theorem vibe_histNonempty (env : Env) (now : ℤ) (cache : Cache)
    (req : Request) (mood : String) (uid : JVal)
    (history : List HistoryEntry) (hm : req.method ≠ "OPTIONS")
    (hmo : lowerMood (req.json.getD ⟨none, none⟩).mood = .ok mood)
    (hu : (req.json.getD ⟨none, none⟩).user_id = some uid)
    (ht : uid.truthy = true)
    (hlk : (clean_old_cache now cache).lookup (uid.pyStr ++ "_" ++ mood) =
      none)
    (hh : env.history uid = .ok history) (hemp : trackIdsOf history ≠ []) :
    vibe_recommend env now cache req =
      continueWithSeeds env now (clean_old_cache now cache)
        (uid.pyStr ++ "_" ++ mood) mood (trackIdsOf history)
        [.historyFetch] := by
  simp [vibe_recommend, hm, hmo, hu, ht, hlk, hh, hemp, List.isEmpty_iff]

theorem continueWithSeeds_calls_extend (env : Env) (now : ℤ) (cache1 : Cache)
    (key mood : String) (tids : List String) (calls : List Call) :
    ∃ extra, (continueWithSeeds env now cache1 key mood tids calls).calls =
      calls ++ extra := by
  by_cases h0 : tids = []
  · rw [cws_empty env now cache1 key mood tids calls h0]
    exact ⟨[], (List.append_nil _).symm⟩
  · cases ha : env.audioFeatures tids with
    | error msg =>
      rw [cws_featErr env now cache1 key mood tids calls msg h0 ha]
      exact ⟨_, rfl⟩
    | ok fs0 =>
      by_cases hfe : fs0.filterMap id = []
      · rw [cws_featEmpty env now cache1 key mood tids calls fs0 h0 ha hfe]
        exact ⟨_, rfl⟩
      · cases hr : env.recommendations (tids.take 5) 20 with
        | error msg =>
          rw [cws_recsErr env now cache1 key mood tids calls fs0 msg h0 ha
            hfe hr]
          exact ⟨_, rfl⟩
        | ok rts =>
          cases hcf : env.audioFeatures (rts.map Track.id) with
          | error e =>
            rw [cws_recFeatErr env now cache1 key mood tids calls fs0 rts e
              h0 ha hfe hr hcf]
            exact ⟨_, rfl⟩
          | ok rfs =>
            cases hs : scoreLoop env.cosSim
                (meanVec ((fs0.filterMap id).map featVec)) (moodTarget mood)
                rts rfs with
            | error e =>
              rw [cws_scoreErr env now cache1 key mood tids calls fs0 rfs rts
                e h0 ha hfe hr hcf hs]
              exact ⟨_, rfl⟩
            | ok scored =>
              rw [cws_ok env now cache1 key mood tids calls fs0 rfs rts
                scored h0 ha hfe hr hcf hs]
              exact ⟨_, rfl⟩

/-- Claim C5: the sweep run before every cache lookup removes every entry
whose age exceeds 10 minutes (600 seconds), every entry surviving the
sweep is at most 10 minutes old, and any cache hit the handler returns
(identified as a 200 response with an empty external-call trace on a
non-OPTIONS request) comes from a surviving entry at most 10 minutes
old. -/
theorem cache_sweep_removes_old :
    (∀ (now : ℤ) (c : Cache) (kv : String × CacheEntry),
        kv ∈ c → 600 < now - kv.2.timestamp → kv ∉ clean_old_cache now c) ∧
    (∀ (now : ℤ) (c : Cache) (k : String) (e : CacheEntry),
        (clean_old_cache now c).lookup k = some e →
        now - e.timestamp ≤ 600) ∧
    (∀ (env : Env) (now : ℤ) (cache : Cache) (req : Request),
        req.method ≠ "OPTIONS" →
        (vibe_recommend env now cache req).calls = [] →
        (vibe_recommend env now cache req).status = 200 →
        ∃ (k : String) (e : CacheEntry),
          (clean_old_cache now cache).lookup k = some e ∧
          now - e.timestamp ≤ 600 ∧
          (vibe_recommend env now cache req).body = .recs e.data) := by
  refine ⟨?_, ?_, ?_⟩
  · intro now c kv hmem hold hin
    have := clean_old_cache_age hin
    omega
  · intro now c k e h
    exact clean_old_cache_age (lookup_mem h)
  · intro env now cache req hm hcalls hstatus
    cases hmo : lowerMood (req.json.getD ⟨none, none⟩).mood with
    | error e =>
      rw [vibe_moodErr env now cache req e hm hmo] at hstatus
      simp at hstatus
    | ok mood =>
      cases huid : (req.json.getD ⟨none, none⟩).user_id with
      | none =>
        rw [vibe_noUser env now cache req mood hm hmo huid] at hstatus
        simp at hstatus
      | some uid =>
        by_cases ht : uid.truthy
        · cases hlk : (clean_old_cache now cache).lookup
              (uid.pyStr ++ "_" ++ mood) with
          | some entry =>
            rw [vibe_hit env now cache req mood uid entry hm hmo huid ht hlk]
            exact ⟨uid.pyStr ++ "_" ++ mood, entry, hlk,
              clean_old_cache_age (lookup_mem hlk), rfl⟩
          | none =>
            cases hh : env.history uid with
            | error e =>
              rw [vibe_histErr env now cache req mood uid e hm hmo huid ht
                hlk hh] at hcalls
              simp at hcalls
            | ok history =>
              by_cases hemp : trackIdsOf history = []
              · cases hs : env.search mood with
                | error e =>
                  rw [vibe_searchErr env now cache req mood uid history e hm
                    hmo huid ht hlk hh hemp hs] at hcalls
                  simp at hcalls
                | ok items =>
                  rw [vibe_searchOk env now cache req mood uid history items
                    hm hmo huid ht hlk hh hemp hs] at hcalls
                  obtain ⟨extra, hx⟩ := continueWithSeeds_calls_extend env
                    now (clean_old_cache now cache)
                    (uid.pyStr ++ "_" ++ mood) mood (items.map Track.id)
                    [.historyFetch, .searchCall]
                  rw [hx] at hcalls
                  simp at hcalls
              · rw [vibe_histNonempty env now cache req mood uid history hm
                  hmo huid ht hlk hh hemp] at hcalls
                obtain ⟨extra, hx⟩ := continueWithSeeds_calls_extend env now
                  (clean_old_cache now cache) (uid.pyStr ++ "_" ++ mood)
                  mood (trackIdsOf history) [.historyFetch]
                rw [hx] at hcalls
                simp at hcalls
        · simp only [Bool.not_eq_true] at ht
          rw [vibe_falsyUser env now cache req mood uid hm hmo huid ht]
            at hstatus
          simp at hstatus

/-- Witness for C5: a 700-second-old entry is swept and is absent from the
cleaned cache. -/
theorem cache_sweep_witness :
    (("k", (⟨[], -700⟩ : CacheEntry)) ∈ ([("k", ⟨[], -700⟩)] : Cache)) ∧
    (600 < (0 : ℤ) - (-700 : ℤ)) ∧
    ("k", (⟨[], -700⟩ : CacheEntry)) ∉ clean_old_cache 0 [("k", ⟨[], -700⟩)] :=
  ⟨by simp, by decide,
   cache_sweep_removes_old.1 0 [("k", ⟨[], -700⟩)] ("k", ⟨[], -700⟩)
     (by simp) (by decide)⟩

/-- Claim C4: on a valid non-OPTIONS request whose cache key
"user_mood" is present after the sweep, the handler returns the cached
payload exactly as stored with HTTP 200, performs zero external calls,
and leaves the cache as the swept cache. -/
theorem cache_hit_returns_cached (env : Env) (now : ℤ) (cache : Cache)
    (req : Request) (mood : String) (uid : JVal) (entry : CacheEntry)
    (hm : req.method ≠ "OPTIONS")
    (hmo : lowerMood (req.json.getD ⟨none, none⟩).mood = .ok mood)
    (hu : (req.json.getD ⟨none, none⟩).user_id = some uid)
    (ht : uid.truthy = true)
    (hlk : (clean_old_cache now cache).lookup (uid.pyStr ++ "_" ++ mood) =
      some entry) :
    (vibe_recommend env now cache req).body = .recs entry.data ∧
    (vibe_recommend env now cache req).status = 200 ∧
    (vibe_recommend env now cache req).calls = [] ∧
    (vibe_recommend env now cache req).cache = clean_old_cache now cache := by
  rw [vibe_hit env now cache req mood uid entry hm hmo hu ht hlk]
  exact ⟨rfl, rfl, rfl, rfl⟩

/-- Witness for C4: a fresh cached entry under key "u_chill" is returned
verbatim with no external calls. -/
theorem cache_hit_witness :
    (clean_old_cache 0 [("u_chill", ⟨[], 0⟩)]).lookup
        ((JVal.str "u").pyStr ++ "_" ++ "chill") = some ⟨[], 0⟩ ∧
    (vibe_recommend env0 0 [("u_chill", ⟨[], 0⟩)]
        ⟨"POST", some ⟨some (.str "u"), none⟩⟩).body = .recs [] ∧
    (vibe_recommend env0 0 [("u_chill", ⟨[], 0⟩)]
        ⟨"POST", some ⟨some (.str "u"), none⟩⟩).calls = [] :=
  ⟨by decide,
   (cache_hit_returns_cached env0 0 [("u_chill", ⟨[], 0⟩)]
      ⟨"POST", some ⟨some (.str "u"), none⟩⟩ "chill" (.str "u") ⟨[], 0⟩
      (by decide) rfl rfl rfl (by decide)).1,
   (cache_hit_returns_cached env0 0 [("u_chill", ⟨[], 0⟩)]
      ⟨"POST", some ⟨some (.str "u"), none⟩⟩ "chill" (.str "u") ⟨[], 0⟩
      (by decide) rfl rfl rfl (by decide)).2.2.1⟩

/-- Claim C3 counterexample: a POST request whose body lacks user_id but
carries a non-string mood value is answered with status 500 (the
attribute error from mood normalization reaches the top-level catch),
not 400 — so "regardless of any other fields present" fails. -/
theorem missing_user_id_counterexample :
    ((⟨"POST", some ⟨none, some (.num 1)⟩⟩ : Request).method ≠ "OPTIONS") ∧
    ((⟨"POST", some ⟨none, some (.num 1)⟩⟩ : Request).json.getD
        ⟨none, none⟩).user_id = none ∧
    (vibe_recommend env0 0 [] ⟨"POST", some ⟨none, some (.num 1)⟩⟩).status
      = 500 ∧
    (vibe_recommend env0 0 [] ⟨"POST", some ⟨none, some (.num 1)⟩⟩).status
      ≠ 400 := by
  have h := vibe_moodErr env0 0 [] ⟨"POST", some ⟨none, some (.num 1)⟩⟩
    "object has no attribute lower" (by decide) rfl
  rw [h]
  exact ⟨by decide, rfl, rfl, by decide⟩

/-- Claim C3 (amended): for every non-OPTIONS request whose body lacks a
truthy user_id, provided the mood field, when present, is a string (so
mood normalization does not raise), the handler returns HTTP 400 with the
JSON error body. -/
theorem missing_user_id_400 (env : Env) (now : ℤ) (cache : Cache)
    (req : Request) (mood : String) (hm : req.method ≠ "OPTIONS")
    (hmood : lowerMood (req.json.getD ⟨none, none⟩).mood = .ok mood)
    (huid : ∀ v, (req.json.getD ⟨none, none⟩).user_id = some v →
      v.truthy = false) :
    (vibe_recommend env now cache req).status = 400 ∧
    (vibe_recommend env now cache req).body = .err "user_id required" := by
  cases hu : (req.json.getD ⟨none, none⟩).user_id with
  | none =>
    rw [vibe_noUser env now cache req mood hm hmood hu]
    exact ⟨rfl, rfl⟩
  | some v =>
    rw [vibe_falsyUser env now cache req mood v hm hmood hu (huid v hu)]
    exact ⟨rfl, rfl⟩

/-- Witness for C3: a request carrying an empty-string user_id and no
mood field gets a 400. -/
theorem missing_user_id_400_witness :
    lowerMood ((⟨"POST", some ⟨some (.str ""), none⟩⟩ : Request).json.getD
        ⟨none, none⟩).mood = .ok "chill" ∧
    (vibe_recommend env0 0 [] ⟨"POST", some ⟨some (.str ""), none⟩⟩).status
      = 400 :=
  ⟨rfl, (missing_user_id_400 env0 0 [] ⟨"POST", some ⟨some (.str ""), none⟩⟩
    "chill" (by decide) rfl
    (fun v hv => by injection hv with hv; subst hv; rfl)).1⟩

/-- Claim C7: when the batched candidate audio-feature fetch throws, every
candidate is treated as featureless and skipped; the response of the run
is HTTP 200 with an empty recommendations list, not HTTP 500. -/
theorem rec_features_failure_degrades (env : Env) (now : ℤ) (cache1 : Cache)
    (key mood : String) (tids : List String) (calls : List Call)
    (fs0 : List (Option AudioFeatures)) (rts : List Track) (e : String)
    (h0 : tids ≠ []) (ha : env.audioFeatures tids = .ok fs0)
    (hfe : fs0.filterMap id ≠ [])
    (hr : env.recommendations (tids.take 5) 20 = .ok rts)
    (hcf : env.audioFeatures (rts.map Track.id) = .error e) :
    (continueWithSeeds env now cache1 key mood tids calls).body = .recs [] ∧
    (continueWithSeeds env now cache1 key mood tids calls).status = 200 := by
  rw [cws_recFeatErr env now cache1 key mood tids calls fs0 rts e h0 ha hfe
    hr hcf]
  exact ⟨rfl, rfl⟩

/-- Witness for C7: with one seed and one candidate whose feature fetch
throws, the run answers 200 with an empty list. -/
theorem rec_features_failure_witness :
    envRecFail.audioFeatures ([tA].map Track.id) = .error "rf down" ∧
    (continueWithSeeds envRecFail 0 [] "u_chill" "chill" ["s1"] []).body
      = .recs [] ∧
    (continueWithSeeds envRecFail 0 [] "u_chill" "chill" ["s1"] []).status
      = 200 :=
  ⟨rfl,
   (rec_features_failure_degrades envRecFail 0 [] "u_chill" "chill" ["s1"]
      [] [some fA] [tA] "rf down" (by decide) rfl (by decide) rfl rfl).1,
   (rec_features_failure_degrades envRecFail 0 [] "u_chill" "chill" ["s1"]
      [] [some fA] [tA] "rf down" (by decide) rfl (by decide) rfl rfl).2⟩

/-- Claim C8: when no seed track ids remain after history and the mood
fallback search, or when every seed feature entry is filtered out as
missing, the run answers HTTP 200 with an empty recommendations list,
not an error. -/
theorem empty_seeds_or_features_ok_200 :
    (∀ (env : Env) (now : ℤ) (cache1 : Cache) (key mood : String)
        (calls : List Call),
        continueWithSeeds env now cache1 key mood [] calls =
          ⟨.recs [], 200, cache1, calls⟩) ∧
    (∀ (env : Env) (now : ℤ) (cache1 : Cache) (key mood : String)
        (tids : List String) (calls : List Call)
        (fs0 : List (Option AudioFeatures)),
        tids ≠ [] → env.audioFeatures tids = .ok fs0 →
        fs0.filterMap id = [] →
        continueWithSeeds env now cache1 key mood tids calls =
          ⟨.recs [], 200, cache1, calls ++ [.seedFeaturesCall]⟩) :=
  ⟨fun env now cache1 key mood calls =>
    cws_empty env now cache1 key mood [] calls rfl,
   fun env now cache1 key mood tids calls fs0 h0 ha hfe =>
    cws_featEmpty env now cache1 key mood tids calls fs0 h0 ha hfe⟩

/-- Witness for C8: a seed whose feature entry comes back null yields the
successful empty response. -/
theorem empty_seeds_witness :
    (["s1"] ≠ ([] : List String)) ∧
    env0.audioFeatures ["s1"] = .ok [] ∧
    continueWithSeeds env0 0 [] "u_chill" "chill" ["s1"] [] =
      ⟨.recs [], 200, [], [.seedFeaturesCall]⟩ :=
  ⟨by decide, rfl,
   empty_seeds_or_features_ok_200.2 env0 0 [] "u_chill" "chill" ["s1"] []
     [] (by decide) rfl rfl⟩

/-- Claim C9: a history-fetch failure has no step-local handler: the run
answers HTTP 500 with the raw exception message; by contrast the search,
seed-feature and recommendation fetches each answer HTTP 500 with their
own generic message, independent of the raw error. -/
theorem history_failure_raw_message_500 :
    (∀ (env : Env) (now : ℤ) (cache : Cache) (req : Request)
        (mood : String) (uid : JVal) (msg : String),
        req.method ≠ "OPTIONS" →
        lowerMood (req.json.getD ⟨none, none⟩).mood = .ok mood →
        (req.json.getD ⟨none, none⟩).user_id = some uid →
        uid.truthy = true →
        (clean_old_cache now cache).lookup (uid.pyStr ++ "_" ++ mood) =
          none →
        env.history uid = .error msg →
        vibe_recommend env now cache req =
          ⟨.err msg, 500, clean_old_cache now cache, [.historyFetch]⟩) ∧
    (∀ (env : Env) (now : ℤ) (cache : Cache) (req : Request)
        (mood : String) (uid : JVal) (history : List HistoryEntry)
        (msg : String),
        req.method ≠ "OPTIONS" →
        lowerMood (req.json.getD ⟨none, none⟩).mood = .ok mood →
        (req.json.getD ⟨none, none⟩).user_id = some uid →
        uid.truthy = true →
        (clean_old_cache now cache).lookup (uid.pyStr ++ "_" ++ mood) =
          none →
        env.history uid = .ok history → trackIdsOf history = [] →
        env.search mood = .error msg →
        vibe_recommend env now cache req =
          ⟨.err "Failed to search tracks", 500, clean_old_cache now cache,
           [.historyFetch, .searchCall]⟩) ∧
    (∀ (env : Env) (now : ℤ) (cache1 : Cache) (key mood : String)
        (tids : List String) (calls : List Call) (msg : String),
        tids ≠ [] → env.audioFeatures tids = .error msg →
        continueWithSeeds env now cache1 key mood tids calls =
          ⟨.err "Failed to get audio features", 500, cache1,
           calls ++ [.seedFeaturesCall]⟩) ∧
    (∀ (env : Env) (now : ℤ) (cache1 : Cache) (key mood : String)
        (tids : List String) (calls : List Call)
        (fs0 : List (Option AudioFeatures)) (msg : String),
        tids ≠ [] → env.audioFeatures tids = .ok fs0 →
        fs0.filterMap id ≠ [] →
        env.recommendations (tids.take 5) 20 = .error msg →
        continueWithSeeds env now cache1 key mood tids calls =
          ⟨.err "Failed to get recommendations", 500, cache1,
           calls ++ [.seedFeaturesCall, .recsCall]⟩) :=
  ⟨fun env now cache req mood uid msg hm hmo hu ht hlk hh =>
    vibe_histErr env now cache req mood uid msg hm hmo hu ht hlk hh,
   fun env now cache req mood uid history msg hm hmo hu ht hlk hh hemp hs =>
    vibe_searchErr env now cache req mood uid history msg hm hmo hu ht hlk
      hh hemp hs,
   fun env now cache1 key mood tids calls msg h0 ha =>
    cws_featErr env now cache1 key mood tids calls msg h0 ha,
   fun env now cache1 key mood tids calls fs0 msg h0 ha hfe hr =>
    cws_recsErr env now cache1 key mood tids calls fs0 msg h0 ha hfe hr⟩

/-- Witness for C9: a throwing history store surfaces its raw message with
status 500. -/
theorem history_failure_witness :
    envHistErr.history (.str "u") = .error "history store down" ∧
    vibe_recommend envHistErr 0 [] ⟨"POST", some ⟨some (.str "u"), none⟩⟩ =
      ⟨.err "history store down", 500, [], [.historyFetch]⟩ :=
  ⟨rfl,
   history_failure_raw_message_500.1 envHistErr 0 []
     ⟨"POST", some ⟨some (.str "u"), none⟩⟩ "chill" (.str "u")
     "history store down" (by decide) rfl rfl rfl (by decide) rfl⟩

theorem scoreLoop_length (cos : Vec3 → Vec3 → ℚ) (u tgt : Vec3)
    (ts : List Track) (fs : List (Option AudioFeatures))
    (scored : List ScoredTrack)
    (h : scoreLoop cos u tgt ts fs = .ok scored) :
    scored.length = (ts.zip fs).countP (fun p => p.2.isSome) := by
  induction ts generalizing fs scored with
  | nil =>
    simp only [scoreLoop, Except.ok.injEq] at h
    simp [← h]
  | cons t ts ih =>
    cases fs with
    | nil => simp [scoreLoop] at h
    | cons of fs =>
      cases of with
      | none =>
        simp only [scoreLoop] at h
        simpa [List.countP_cons] using ih fs scored h
      | some f =>
        simp only [scoreLoop] at h
        cases hrec : scoreLoop cos u tgt ts fs with
        | error e => rw [hrec] at h; simp at h
        | ok rest =>
          rw [hrec] at h
          simp only [Except.ok.injEq] at h
          subst h
          simpa [List.countP_cons] using ih fs rest hrec

/-- Claim C2: on every run that completes candidate scoring, the returned
body is the scored list sorted by score in descending order, stably
(entries of equal score keep their original relative order), truncated to
at most 10 entries; its length is at most 10 and at most the number of
candidates with a non-null feature entry. -/
theorem sorted_top10_output (env : Env) (now : ℤ) (cache1 : Cache)
    (key mood : String) (tids : List String) (calls : List Call)
    (fs0 rfs : List (Option AudioFeatures)) (rts : List Track)
    (scored : List ScoredTrack) (h0 : tids ≠ [])
    (ha : env.audioFeatures tids = .ok fs0) (hfe : fs0.filterMap id ≠ [])
    (hr : env.recommendations (tids.take 5) 20 = .ok rts)
    (hcf : env.audioFeatures (rts.map Track.id) = .ok rfs)
    (hs : scoreLoop env.cosSim (meanVec ((fs0.filterMap id).map featVec))
            (moodTarget mood) rts rfs = .ok scored) :
    (continueWithSeeds env now cache1 key mood tids calls).body =
      .recs (sortTop scored) ∧
    (sortTop scored).length ≤ 10 ∧
    (sortTop scored).length ≤ scored.length ∧
    scored.length = (rts.zip rfs).countP (fun p => p.2.isSome) ∧
    List.Sorted (fun a b : ScoredTrack => b.score ≤ a.score)
      (sortTop scored) ∧
    ∃ full : List ScoredTrack,
      full.Perm scored ∧
      List.Sorted (fun a b : ScoredTrack => b.score ≤ a.score) full ∧
      (∀ q : ℚ, full.filter (fun s => s.score = q) =
        scored.filter (fun s => s.score = q)) ∧
      sortTop scored = full.take 10 := by
  have htrans : ∀ a b c : ScoredTrack,
      decide (b.score ≤ a.score) = true →
      decide (c.score ≤ b.score) = true →
      decide (c.score ≤ a.score) = true := by
    intro a b c hab hbc
    simp only [decide_eq_true_iff] at *
    exact le_trans hbc hab
  have htotal : ∀ a b : ScoredTrack,
      (decide (b.score ≤ a.score) || decide (a.score ≤ b.score)) = true := by
    intro a b
    rcases le_total a.score b.score with h | h <;> simp [h]
  have hsorted := List.sorted_mergeSort htrans htotal scored
  have hperm := List.mergeSort_perm scored
    (fun a b : ScoredTrack => decide (b.score ≤ a.score))
  refine ⟨?_, ?_, ?_, scoreLoop_length _ _ _ _ _ _ hs, ?_, ?_⟩
  · rw [cws_ok env now cache1 key mood tids calls fs0 rfs rts scored h0 ha
      hfe hr hcf hs]
  · simp only [sortTop, List.length_take]
    exact min_le_left _ _
  · simp only [sortTop, List.length_take, List.length_mergeSort]
    exact min_le_right _ _
  · exact List.Pairwise.sublist (List.take_sublist _ _)
      (hsorted.imp fun h => decide_eq_true_iff.mp h)
  · refine ⟨scored.mergeSort
      (fun a b : ScoredTrack => decide (b.score ≤ a.score)), hperm,
      hsorted.imp fun h => decide_eq_true_iff.mp h, ?_, rfl⟩
    intro q
    set p : ScoredTrack → Bool := fun s => decide (s.score = q) with hp
    set c : List ScoredTrack := scored.filter p with hc
    have hcsub : c.Sublist scored := List.filter_sublist scored
    have hcall : ∀ a ∈ c, a.score = q := by
      intro a ha2
      have := (List.mem_filter.mp ha2).2
      simpa [hp] using this
    have hcpair : c.Pairwise
        (fun a b : ScoredTrack => decide (b.score ≤ a.score) = true) := by
      refine List.pairwise_of_forall_mem_list ?_
      intro a ha2 b hb2
      simp [hcall a ha2, hcall b hb2]
    have h1 : c.Sublist (scored.mergeSort
        (fun a b : ScoredTrack => decide (b.score ≤ a.score))) :=
      List.sublist_mergeSort htrans htotal hcpair hcsub
    have h2 : ((scored.mergeSort
        (fun a b : ScoredTrack => decide (b.score ≤ a.score))).filter p).Perm
        c := hperm.filter p
    have h3 : c.Sublist ((scored.mergeSort
        (fun a b : ScoredTrack => decide (b.score ≤ a.score))).filter p) := by
      have := List.Sublist.filter p h1
      rwa [List.filter_eq_self.mpr (fun a ha2 => by
        simp [hp, hcall a ha2])] at this
    have h4 : c = (scored.mergeSort
        (fun a b : ScoredTrack => decide (b.score ≤ a.score))).filter p :=
      h3.eq_of_length h2.length_eq.symm
    exact h4.symm

/-- Witness for C2: a one-candidate scoring run returns the sorted
truncated list as its body. -/
theorem sorted_top10_witness :
    scoreLoop envRun.cosSim (meanVec (([some fA].filterMap id).map featVec))
        (moodTarget "chill") [tA] [some fB] =
      .ok [mkScored envRun.cosSim
            (meanVec (([some fA].filterMap id).map featVec))
            (moodTarget "chill") tA fB] ∧
    (continueWithSeeds envRun 0 [] "u_chill" "chill" ["s1"] []).body =
      .recs (sortTop [mkScored envRun.cosSim
            (meanVec (([some fA].filterMap id).map featVec))
            (moodTarget "chill") tA fB]) :=
  ⟨rfl,
   (sorted_top10_output envRun 0 [] "u_chill" "chill" ["s1"] [] [some fA]
      [some fB] [tA]
      [mkScored envRun.cosSim
        (meanVec (([some fA].filterMap id).map featVec))
        (moodTarget "chill") tA fB]
      (by decide) rfl (by decide) rfl rfl rfl).1⟩

theorem cws_cache_cases (env : Env) (now : ℤ) (cache1 : Cache)
    (key mood : String) (tids : List String) (calls : List Call) :
    (continueWithSeeds env now cache1 key mood tids calls).cache = cache1 ∨
    (∃ l, (continueWithSeeds env now cache1 key mood tids calls).body =
        .recs l ∧
      (continueWithSeeds env now cache1 key mood tids calls).status = 200 ∧
      Call.recFeaturesCall ∈
        (continueWithSeeds env now cache1 key mood tids calls).calls ∧
      (continueWithSeeds env now cache1 key mood tids calls).cache =
        cacheInsert cache1 key ⟨l, now⟩) := by
  by_cases h0 : tids = []
  · rw [cws_empty env now cache1 key mood tids calls h0]
    exact .inl rfl
  · cases ha : env.audioFeatures tids with
    | error msg =>
      rw [cws_featErr env now cache1 key mood tids calls msg h0 ha]
      exact .inl rfl
    | ok fs0 =>
      by_cases hfe : fs0.filterMap id = []
      · rw [cws_featEmpty env now cache1 key mood tids calls fs0 h0 ha hfe]
        exact .inl rfl
      · cases hr : env.recommendations (tids.take 5) 20 with
        | error msg =>
          rw [cws_recsErr env now cache1 key mood tids calls fs0 msg h0 ha
            hfe hr]
          exact .inl rfl
        | ok rts =>
          cases hcf : env.audioFeatures (rts.map Track.id) with
          | error e =>
            rw [cws_recFeatErr env now cache1 key mood tids calls fs0 rts e
              h0 ha hfe hr hcf]
            exact .inr ⟨[], rfl, rfl, by simp, rfl⟩
          | ok rfs =>
            cases hs : scoreLoop env.cosSim
                (meanVec ((fs0.filterMap id).map featVec)) (moodTarget mood)
                rts rfs with
            | error e =>
              rw [cws_scoreErr env now cache1 key mood tids calls fs0 rfs
                rts e h0 ha hfe hr hcf hs]
              exact .inl rfl
            | ok scored =>
              rw [cws_ok env now cache1 key mood tids calls fs0 rfs rts
                scored h0 ha hfe hr hcf hs]
              exact .inr ⟨sortTop scored, rfl, rfl, by simp, rfl⟩

/-- Claim C10: the cache is written only on the path that completes
candidate scoring (including the degraded empty-scoring path, both marked
by the candidate-feature call in the trace and a 200 recommendations
response); every other outcome leaves the cache either untouched or equal
to the swept cache. -/
theorem cache_written_only_on_scoring (env : Env) (now : ℤ) (cache : Cache)
    (req : Request) :
    (vibe_recommend env now cache req).cache = cache ∨
    (vibe_recommend env now cache req).cache = clean_old_cache now cache ∨
    (∃ (key : String) (l : List ScoredTrack),
      (vibe_recommend env now cache req).body = .recs l ∧
      (vibe_recommend env now cache req).status = 200 ∧
      Call.recFeaturesCall ∈ (vibe_recommend env now cache req).calls ∧
      (vibe_recommend env now cache req).cache =
        cacheInsert (clean_old_cache now cache) key ⟨l, now⟩) := by
  by_cases hm : req.method = "OPTIONS"
  · rw [vibe_options env now cache req hm]
    exact .inl rfl
  · cases hmo : lowerMood (req.json.getD ⟨none, none⟩).mood with
    | error e =>
      rw [vibe_moodErr env now cache req e hm hmo]
      exact .inl rfl
    | ok mood =>
      cases huid : (req.json.getD ⟨none, none⟩).user_id with
      | none =>
        rw [vibe_noUser env now cache req mood hm hmo huid]
        exact .inl rfl
      | some uid =>
        by_cases ht : uid.truthy
        · cases hlk : (clean_old_cache now cache).lookup
              (uid.pyStr ++ "_" ++ mood) with
          | some entry =>
            rw [vibe_hit env now cache req mood uid entry hm hmo huid ht hlk]
            exact .inr (.inl rfl)
          | none =>
            cases hh : env.history uid with
            | error e =>
              rw [vibe_histErr env now cache req mood uid e hm hmo huid ht
                hlk hh]
              exact .inr (.inl rfl)
            | ok history =>
              by_cases hemp : trackIdsOf history = []
              · cases hsr : env.search mood with
                | error e =>
                  rw [vibe_searchErr env now cache req mood uid history e hm
                    hmo huid ht hlk hh hemp hsr]
                  exact .inr (.inl rfl)
                | ok items =>
                  rw [vibe_searchOk env now cache req mood uid history items
                    hm hmo huid ht hlk hh hemp hsr]
                  rcases cws_cache_cases env now (clean_old_cache now cache)
                      (uid.pyStr ++ "_" ++ mood) mood (items.map Track.id)
                      [.historyFetch, .searchCall] with h | ⟨l, h1, h2, h3, h4⟩
                  · exact .inr (.inl h)
                  · exact .inr (.inr ⟨uid.pyStr ++ "_" ++ mood, l, h1, h2,
                      h3, h4⟩)
              · rw [vibe_histNonempty env now cache req mood uid history hm
                  hmo huid ht hlk hh hemp]
                rcases cws_cache_cases env now (clean_old_cache now cache)
                    (uid.pyStr ++ "_" ++ mood) mood (trackIdsOf history)
                    [.historyFetch] with h | ⟨l, h1, h2, h3, h4⟩
                · exact .inr (.inl h)
                · exact .inr (.inr ⟨uid.pyStr ++ "_" ++ mood, l, h1, h2,
                    h3, h4⟩)
        · simp only [Bool.not_eq_true] at ht
          rw [vibe_falsyUser env now cache req mood uid hm hmo huid ht]
          exact .inl rfl
